import Mathlib

/-!
Verification development for a small MCP tool-hosting repository
(`server.py`, `client.py`, `advanced_gradio.py`).

The Python sources are shallowly embedded: pure string manipulation is
modelled on `List Char` / `String`, Python numbers are modelled as an
`int`/`float` sum (`float` carried as an exact rational), fallible
evaluation is modelled with `Except`, and the thread/timeout machinery of
the browser UI is modelled as a function of the observable join outcome.
-/

/-! ## Python string primitives

Each definition models the corresponding Python `str` operation as used by
the repository (ASCII-level fidelity; the repository only routes on ASCII
prefixes and ASCII denylist tokens). -/

/-- Python `str.lower()` (ASCII case folding, which covers every token and
prefix the repository compares). -/
def lowerStr (s : String) : String :=
  String.mk (s.data.map Char.toLower)

/-- Python `s.startswith(p)`. -/
def pyStartsWith (s p : String) : Bool :=
  p.data.isPrefixOf s.data

/-- Python `s[n:]` for a nonnegative literal `n` (codepoint slicing). -/
def pyDrop (s : String) (n : Nat) : String :=
  String.mk (s.data.drop n)

/-- Python whitespace as recognised by `str.strip()` / `str.split()`. -/
def pyWSChar (c : Char) : Bool :=
  c = ' ' || c = '\t' || c = '\n' || c = '\x0b' || c = '\x0c' || c = '\r'

/-- Python `s.strip()`. -/
def pyStrip (s : String) : String :=
  String.mk (((s.data.dropWhile pyWSChar).reverse.dropWhile pyWSChar).reverse)

/-- Helper of `pySplitWS`: accumulate the current word (reversed). -/
def wordsAux : List Char → List Char → List String
  | [], acc => if acc.isEmpty then [] else [String.mk acc.reverse]
  | c :: rest, acc =>
    if pyWSChar c then
      if acc.isEmpty then wordsAux rest []
      else String.mk acc.reverse :: wordsAux rest []
    else wordsAux rest (c :: acc)

/-- Python `s.split()` with no argument: split on whitespace runs,
dropping empty pieces. -/
def pySplitWS (s : String) : List String :=
  wordsAux s.data []

/-- Python `" ".join(l)`. -/
def joinSp : List String → String
  | [] => ""
  | [x] => x
  | x :: xs => x ++ " " ++ joinSp xs

/-- Python `s.replace(c, r)` for a single-character pattern `c`
(the only shape of `replace` the repository uses). -/
def replaceChar (c : Char) (r : List Char) : List Char → List Char
  | [] => []
  | x :: xs => (if x = c then r else [x]) ++ replaceChar c r xs

/-- Python list slice `l[i:]` (negative indices count from the end and
clamp at the start, as in CPython). -/
def pySliceFrom (i : Int) (l : List String) : List String :=
  if 0 ≤ i then l.drop i.toNat else l.drop ((l.length : Int) + i).toNat

/-- Python list slice `l[:i]` (negative indices count from the end and
clamp at the start, as in CPython). -/
def pySliceTo (i : Int) (l : List String) : List String :=
  if 0 ≤ i then l.take i.toNat else l.take ((l.length : Int) + i).toNat

/-- Python substring containment `p in s`: `p` occurs contiguously in `s`. -/
def containsSub (p : List Char) : List Char → Bool
  | [] => p.isEmpty
  | c :: rest => p.isPrefixOf (c :: rest) || containsSub p rest

theorem str_append_assoc (a b c : String) : a ++ b ++ c = a ++ (b ++ c) := by
  obtain ⟨la⟩ := a
  obtain ⟨lb⟩ := b
  obtain ⟨lc⟩ := c
  exact congrArg String.mk (List.append_assoc la lb lc)

/-! ## Python numbers and arithmetic, as reachable from `calculate`

`server.py` evaluates the cleaned expression with a restricted evaluation
environment.  The expressions the verified claims touch are built from
integer/decimal literals and the operators `+ - * / **` with parentheses,
so the embedded interpreter covers exactly that fragment with CPython
semantics (`/` is true division producing a float, `**` on ints with a
nonnegative exponent stays an int, division by zero raises).  Anything
outside the fragment is reported as an `other` exception, which the
`except Exception` catch-all of the source converts to an error string. -/

/-- A Python value reachable from the arithmetic fragment: `int`, or
`float` carried as an exact rational. -/
inductive PyVal
  | int (n : Int)
  | float (q : Rat)
deriving DecidableEq, Repr

/-- The exception classes distinguished by `calculate`'s `except` clauses. -/
inductive PyExc
  | zeroDivision
  | valueError (msg : String)
  | syntaxError
  | other (msg : String)
deriving DecidableEq, Repr

def PyVal.toQ : PyVal → Rat
  | .int n => (n : Rat)
  | .float q => q

/-- Python `+` on numbers: int stays int, any float makes a float. -/
def pyAdd : PyVal → PyVal → PyVal
  | .int a, .int b => .int (a + b)
  | a, b => .float (a.toQ + b.toQ)

/-- Python `-` on numbers. -/
def pySub : PyVal → PyVal → PyVal
  | .int a, .int b => .int (a - b)
  | a, b => .float (a.toQ - b.toQ)

/-- Python `*` on numbers. -/
def pyMul : PyVal → PyVal → PyVal
  | .int a, .int b => .int (a * b)
  | a, b => .float (a.toQ * b.toQ)

/-- Python unary `-`. -/
def pyNeg : PyVal → PyVal
  | .int n => .int (-n)
  | .float q => .float (-q)

/-- Python `/`: true division, always a float, raising on a zero divisor. -/
def pyDiv (a b : PyVal) : Except PyExc PyVal :=
  if b.toQ = 0 then .error .zeroDivision
  else .ok (.float (a.toQ / b.toQ))

/-- Python `**` on the embedded fragment: `int ** nonneg-int` is an int,
a negative exponent or a float operand gives a float, `0` to a negative
power raises `ZeroDivisionError`.  Non-integral exponents (not reachable
from any verified claim) are flagged as unsupported. -/
def pyPow (a b : PyVal) : Except PyExc PyVal :=
  match a, b with
  | .int m, .int n =>
    if 0 ≤ n then .ok (.int (m ^ n.toNat))
    else if m = 0 then .error .zeroDivision
    else .ok (.float ((m : Rat) ^ n))
  | a, b =>
    if b.toQ.den = 1 then
      if a.toQ = 0 ∧ b.toQ.num < 0 then .error .zeroDivision
      else .ok (.float (a.toQ ^ b.toQ.num))
    else .error (.other "non-integral exponent not modelled")

/-! ## Tokenizer and parser for the arithmetic fragment -/

inductive Tok
  | num (v : PyVal)
  | plus | minus | star | dstar | slash | lparen | rparen
deriving DecidableEq, Repr

def digitsToNat (ds : List Char) : Nat :=
  ds.foldl (fun a c => 10 * a + (c.toNat - 48)) 0

/-- Tokenize the cleaned expression.  Fuel is the remaining length, each
step consumes at least one character. -/
def tokenize : Nat → List Char → Except PyExc (List Tok)
  | _, [] => .ok []
  | 0, _ => .error (.other "tokenizer fuel exhausted")
  | f + 1, c :: cs =>
    if c = '+' then (tokenize f cs).map (fun ts => .plus :: ts)
    else if c = '-' then (tokenize f cs).map (fun ts => .minus :: ts)
    else if c = '/' then (tokenize f cs).map (fun ts => .slash :: ts)
    else if c = '(' then (tokenize f cs).map (fun ts => .lparen :: ts)
    else if c = ')' then (tokenize f cs).map (fun ts => .rparen :: ts)
    else if c = '*' then
      match cs with
      | '*' :: cs2 => (tokenize f cs2).map (fun ts => .dstar :: ts)
      | _ => (tokenize f cs).map (fun ts => .star :: ts)
    else if c.isDigit then
      let ip := (c :: cs).takeWhile Char.isDigit
      let rest := (c :: cs).dropWhile Char.isDigit
      match rest with
      | '.' :: r2 =>
        let fp := r2.takeWhile Char.isDigit
        let r3 := r2.dropWhile Char.isDigit
        let v : Rat := (digitsToNat ip : Rat) + (digitsToNat fp : Rat) / (10 : Rat) ^ fp.length
        (tokenize f r3).map (fun ts => .num (.float v) :: ts)
      | _ => (tokenize f rest).map (fun ts => .num (.int (digitsToNat ip)) :: ts)
    else if c = '.' then
      match cs.takeWhile Char.isDigit with
      | [] => .error .syntaxError
      | fp =>
        (tokenize f (cs.dropWhile Char.isDigit)).map
          (fun ts => .num (.float ((digitsToNat fp : Rat) / (10 : Rat) ^ fp.length)) :: ts)
    else .error (.other "character outside the modelled fragment")

/-- Which grammar production the recursive-descent step is in.  Loop
productions carry the left-associated accumulator. -/
inductive PK
  | expr
  | addLoop (acc : PyVal)
  | term
  | mulLoop (acc : PyVal)
  | factor
  | power
  | atom

/-- Recursive-descent interpretation of the token list with CPython
precedence: `+ -` < `* /` < unary `-` < `**` (right associative) < atoms.
Structural recursion on fuel so that concrete runs reduce in the kernel. -/
def parseP : Nat → PK → List Tok → Except PyExc (PyVal × List Tok)
  | 0, _, _ => .error (.other "parse fuel exhausted")
  | f + 1, pk, ts =>
    match pk with
    | .expr => do
      let (v, r) ← parseP f .term ts
      parseP f (.addLoop v) r
    | .addLoop v =>
      match ts with
      | .plus :: r => do
        let (w, r2) ← parseP f .term r
        parseP f (.addLoop (pyAdd v w)) r2
      | .minus :: r => do
        let (w, r2) ← parseP f .term r
        parseP f (.addLoop (pySub v w)) r2
      | _ => .ok (v, ts)
    | .term => do
      let (v, r) ← parseP f .factor ts
      parseP f (.mulLoop v) r
    | .mulLoop v =>
      match ts with
      | .star :: r => do
        let (w, r2) ← parseP f .factor r
        parseP f (.mulLoop (pyMul v w)) r2
      | .slash :: r => do
        let (w, r2) ← parseP f .factor r
        let u ← pyDiv v w
        parseP f (.mulLoop u) r2
      | _ => .ok (v, ts)
    | .factor =>
      match ts with
      | .minus :: r => do
        let (v, r2) ← parseP f .factor r
        .ok (pyNeg v, r2)
      | .plus :: r => parseP f .factor r
      | _ => parseP f .power ts
    | .power => do
      let (a, r) ← parseP f .atom ts
      match r with
      | .dstar :: r2 => do
        let (b, r3) ← parseP f .factor r2
        let v ← pyPow a b
        .ok (v, r3)
      | _ => .ok (a, r)
    | .atom =>
      match ts with
      | .num v :: r => .ok (v, r)
      | .lparen :: r => do
        let (v, r2) ← parseP f .expr r
        match r2 with
        | .rparen :: r3 => .ok (v, r3)
        | _ => .error .syntaxError
      | _ => .error .syntaxError

/-- The model of CPython `eval` restricted to the arithmetic fragment
`calculate` feeds it (after cleaning). -/
def pyInterp (s : String) : Except PyExc PyVal := do
  let ts ← tokenize (s.data.length + 1) s.data
  let (v, r) ← parseP (16 * (ts.length + 1)) .expr ts
  match r with
  | [] => .ok v
  | _ => .error .syntaxError

deriving instance DecidableEq for Except

/-! ## Result formatting (`server.py` lines 53-60)

`calculate` prints an integral float as `int(result)` and any other float
with the format spec `.10g` (10 significant digits, fixed notation for
decimal exponents in `[-4, 10)`, exponent notation otherwise, trailing
zeros stripped).  `fmt10g` reproduces that rendering for the exact
rationals standing in for floats. -/

/-- Strip trailing `'0'` characters. -/
def stripZeros (s : List Char) : List Char :=
  (s.reverse.dropWhile (fun c => c = '0')).reverse

/-- Floor of `log10` of a positive rational:
the `e` with `10 ^ e ≤ q < 10 ^ (e + 1)`. -/
def qExp10 (q : Rat) : Int :=
  let n := q.num.natAbs
  let d := q.den
  let c : Int := (Nat.log 10 n : Int) - (Nat.log 10 d : Int)
  if 0 ≤ c then
    if (d : Int) * (10 : Int) ^ c.toNat ≤ (n : Int) then c else c - 1
  else
    if (d : Int) ≤ (n : Int) * (10 : Int) ^ (-c).toNat then c else c - 1

/-- Round half to even, the rounding used by `%g` formatting. -/
def rhe (q : Rat) : Int :=
  let fl : Int := Rat.floor q
  let fr : Rat := q - (fl : Rat)
  if fr < 1 / 2 then fl
  else if (1 : Rat) / 2 < fr then fl + 1
  else if fl % 2 = 0 then fl else fl + 1

/-- `10 ^ k` over the rationals for an integer `k`. -/
def pow10Q (k : Int) : Rat :=
  if 0 ≤ k then (10 : Rat) ^ k.toNat else 1 / (10 : Rat) ^ (-k).toNat

/-- Python `format(x, ".10g")` on the rational model of a float. -/
def fmt10g (q : Rat) : String :=
  if q = 0 then "0"
  else
    let sgn := if q < 0 then "-" else ""
    let a : Rat := |q|
    let e0 := qExp10 a
    let m0 := (rhe (a * pow10Q (9 - e0))).toNat
    let m := if m0 = 10 ^ 10 then 10 ^ 9 else m0
    let e := if m0 = 10 ^ 10 then e0 + 1 else e0
    let ds := (toString m).data
    if -4 ≤ e ∧ e ≤ 9 then
      if 0 ≤ e then
        let ip := ds.take (e.toNat + 1)
        let fp := stripZeros (ds.drop (e.toNat + 1))
        sgn ++ String.mk ip ++ (if fp.isEmpty then "" else "." ++ String.mk fp)
      else
        sgn ++ "0." ++ String.mk (List.replicate (-(e + 1)).toNat '0' ++ stripZeros ds)
    else
      let rest := stripZeros (ds.drop 1)
      let mant := String.mk (ds.take 1) ++ (if rest.isEmpty then "" else "." ++ String.mk rest)
      let es0 := toString e.natAbs
      let es := if es0.length < 2 then "0" ++ es0 else es0
      sgn ++ mant ++ (if e < 0 then "e-" else "e+") ++ es

/-- The result formatting of `calculate` (`server.py` lines 53-60):
a non-float result is printed with `str`, an integral float is printed as
`int(result)`, any other float with `.10g`. -/
def formatVal : PyVal → String
  | .int n => toString n
  | .float q => if q.den = 1 then toString q.num else fmt10g q

namespace Server

/-! ## `server.py` -/

/-- The cleaning step of `calculate` (`server.py` lines 26-27):
`expression.replace('^', '**').replace(' ', '')`. -/
def cleanExpr (expression : String) : String :=
  String.mk (replaceChar ' ' [] (replaceChar '^' ['*', '*'] expression.data))

/-- The denylist of `calculate` (`server.py` line 33). -/
def dangerous_patterns : List String :=
  ["import", "exec", "eval", "__", "open", "file"]

/-- The denylist loop of `calculate` (`server.py` lines 34-36): the first
pattern contained in the lowercased cleaned expression, if any. -/
def firstDangerous (e : String) : Option String :=
  dangerous_patterns.find? (fun p => containsSub p.data (lowerStr e).data)

/-- `calculate` (`server.py` lines 13-69), parameterised by the evaluation
step so that properties independent of the evaluator (denylist rejection,
error conversion, echo format) can be stated for every evaluator.
The `try`/`except` ladder of the source becomes the match on the
evaluation outcome; each `except` clause is one arm. -/
def calculateWith (ev : String → Except PyExc PyVal) (expression : String) : String :=
  let e := cleanExpr expression
  if e = "" then "Error: Empty expression"
  else
    match firstDangerous e with
    | some p => "Error: \x27" ++ p ++ "\x27 not allowed in expressions"
    | none =>
      match ev e with
      | .ok v => e ++ " = " ++ formatVal v
      | .error .zeroDivision => "Error: Division by zero"
      | .error (.valueError m) => "Error: Invalid value - " ++ m
      | .error .syntaxError => "Error: Invalid mathematical expression"
      | .error (.other m) => "Error: " ++ m

/-- `calculate` with the embedded evaluator for the arithmetic fragment. -/
def calculate (expression : String) : String :=
  calculateWith pyInterp expression

/-- `summarize_text` (`server.py` lines 136-161).  `max_length` is a
Python int, and the slice index of the last part is `(-max_length) // 2`
(unary minus binds tighter than `//`), a floor division of a negative
number.  The `except` wrapper of the source is unreachable here: nothing
in the body raises. -/
def summarize_text (text : String) (max_length : Int) : String :=
  let words := pySplitWS text
  if (words.length : Int) ≤ max_length then
    "Text is already short (" ++ toString words.length ++ " words): " ++ text
  else
    let first_part := joinSp (pySliceTo (Int.fdiv max_length 2) words)
    let last_part := joinSp (pySliceFrom (Int.fdiv (-max_length) 2) words)
    let summary := first_part ++ "... " ++ last_part
    "Summary (" ++ toString (pySplitWS summary).length ++ " words): " ++ summary

/-- A tool descriptor as surfaced by `list_tools`. -/
structure ToolDescriptor where
  name : String
  description : String
deriving DecidableEq

/-- The registry built at `server.py` lines 164-173: `to_fastmcp` of the
four `@tool` functions.  LangChain's `@tool` decorator names a tool after
the decorated Python function, which the clients corroborate by invoking
exactly these names (`client.py` lines 67, 78, 89, 97 and
`advanced_gradio.py` lines 83, 93, 101, 109, 269); the description is the
summary line of the docstring. -/
def tool_registry : List ToolDescriptor :=
  [⟨"calculate", "Perform mathematical calculations and evaluate expressions."⟩,
   ⟨"chat_with_gemma3", "Chat with Gemma3 via Ollama."⟩,
   ⟨"web_search", "Search the web for information."⟩,
   ⟨"summarize_text", "Summarize a given text."⟩]

/-- The tool names `list_tools` reports. -/
def tool_names : List String :=
  tool_registry.map ToolDescriptor.name

end Server

namespace Gradio

/-! ## `advanced_gradio.py`

The per-call MCP round trip (spawn the server, initialize, `call_tool`,
tear down) is abstracted as a `SessionBehavior`: either the session
machinery returns a result object with a list of content blocks (each with
optional text), or some step of the bridge raises.  `call_tool_async` is a
total function of that behavior because its body catches every exception.
The thread/queue/join machinery of `call_tool_sync` is modelled by the
observable outcome of the 300-second `join`. -/

/-- What one `stdio_client`/`ClientSession` round trip does:
deliver content blocks, or raise somewhere in the bridge. -/
inductive SessionBehavior
  | returns (content : List (Option String))
  | raises (msg : String)

/-- `call_tool_async` (`advanced_gradio.py` lines 18-38): return the first
content block's text when it is truthy, the fixed fallback string
otherwise, and convert any exception to `"Error: " + str(e)`. -/
def call_tool_async : SessionBehavior → String
  | .raises m => "Error: " ++ m
  | .returns [] => "No response received"
  | .returns (none :: _) => "No response received"
  | .returns (some t :: _) => if t = "" then "No response received" else t

/-- `thread_func` (`advanced_gradio.py` lines 54-59): what the worker puts
on the result queue, given the outcome of `run_async` (`.ok` -- it
returned a string; `.error` -- it raised and `str(e)` is recorded). -/
def thread_func : Except String String → Bool × String
  | .ok r => (true, r)
  | .error e => (false, e)

/-- The observable outcome of `thread.join(timeout=300)`
(`advanced_gradio.py` lines 61-72): either the worker is still alive when
the wait expires, or it finished and the queue holds at most one
`(status, payload)` pair (`true` = success entry, `false` = error entry;
`none` = the degenerate empty-queue race). -/
inductive JoinOutcome
  | timedOut
  | finished (queued : Option (Bool × String))

/-- `call_tool_sync` (`advanced_gradio.py` lines 40-72) as a function of
the join outcome.  Every branch returns a plain string; no fault
propagates to the caller. -/
def call_tool_sync : JoinOutcome → String
  | .timedOut => "⏱️ Timeout: Request took too long"
  | .finished none => "❌ No response received"
  | .finished (some (true, r)) => r
  | .finished (some (false, e)) => "❌ " ++ e

/-- `calculate` handler of the Calculator tab (`advanced_gradio.py` lines
88-93), parameterised by the adapter call `ct name arguments`. -/
def calculate (ct : String → List (String × String) → String)
    (expression : String) : String :=
  if pyStrip expression = "" then "Please enter a mathematical expression"
  else ct "calculate" [("expression", expression)]

/-- `web_search` handler of the Web Search tab (`advanced_gradio.py`
lines 96-101). -/
def web_search (ct : String → List (String × String) → String)
    (query : String) : String :=
  if pyStrip query = "" then "Please enter a search query"
  else ct "web_search" [("query", query)]

/-- `summarize` handler of the Summarizer tab (`advanced_gradio.py`
lines 104-109). -/
def summarize (ct : String → List (String × String) → String)
    (text : String) : String :=
  if pyStrip text = "" then "Please enter text to summarize"
  else ct "summarize_text" [("text", text)]

/-- `multi_tool_response` (`advanced_gradio.py` lines 253-272): the
Multi-Tool tab's router.  Returns the updated history and the cleared
input box.  Prefix checks are on the raw message (case-sensitive),
in the order `calc:`, `search:`, `summarize:`, chat fallback. -/
def multi_tool_response (ct : String → List (String × String) → String)
    (message : String) (history : List (String × String)) :
    List (String × String) × String :=
  if pyStrip message = "" then (history, "")
  else if pyStartsWith message "calc:" then
    (history ++ [(message, "🧮 " ++ Gradio.calculate ct (pyStrip (pyDrop message 5)))], "")
  else if pyStartsWith message "search:" then
    (history ++ [(message, "🔍 " ++ Gradio.web_search ct (pyStrip (pyDrop message 7)))], "")
  else if pyStartsWith message "summarize:" then
    (history ++ [(message, "📝 " ++ Gradio.summarize ct (pyStrip (pyDrop message 10)))], "")
  else
    (history ++ [(message, "🤖 " ++ ct "chat_with_gemma3" [("message", message)])], "")

end Gradio

namespace Client

/-! ## `client.py`

The console chat loop (lines 45-98).  Each iteration reads a line, strips
it, and dispatches.  The dispatch decision is pure and is modelled as a
function from the raw input line to an action. -/

/-- The action one loop iteration takes for a given input line. -/
inductive ConsoleAction
  | quit
  | skip
  | listTools
  | calcCall (expression : String)
  | calcUsage
  | searchCall (query : String)
  | searchUsage
  | summarizeCall (text : String)
  | summarizeUsage
  | chatCall (message : String)
deriving DecidableEq, Repr

/-- The dispatch of one console loop iteration (`client.py` lines 47-98).
Note every prefix test is made on the lowercased stripped input
(`user_input.lower().startswith(...)`), while the argument is cut from
the original stripped input. -/
def route (rawInput : String) : ConsoleAction :=
  let u := pyStrip rawInput
  if lowerStr u = "quit" ∨ lowerStr u = "exit" ∨ lowerStr u = "q" then .quit
  else if u = "" then .skip
  else if lowerStr u = "tools" then .listTools
  else if pyStartsWith (lowerStr u) "calc:" then
    let e := pyStrip (pyDrop u 5)
    if e = "" then .calcUsage else .calcCall e
  else if pyStartsWith (lowerStr u) "search:" then
    let q := pyStrip (pyDrop u 7)
    if q = "" then .searchUsage else .searchCall q
  else if pyStartsWith (lowerStr u) "summarize:" then
    let t := pyStrip (pyDrop u 10)
    if t = "" then .summarizeUsage else .summarizeCall t
  else .chatCall u

/-- The MCP tool name each dispatched action invokes
(`client.py` lines 67, 78, 89, 97). -/
def calledTool : ConsoleAction → Option String
  | .calcCall _ => some "calculate"
  | .searchCall _ => some "web_search"
  | .summarizeCall _ => some "summarize_text"
  | .chatCall _ => some "chat_with_gemma3"
  | _ => none

end Client

/-! ## Helper lemmas -/

theorem count_caret_replace (l : List Char) :
    (replaceChar '^' ['*', '*'] l).count '^' = 0 := by
  induction l with
  | nil => rfl
  | cons x xs ih =>
    simp only [replaceChar, List.count_append]
    by_cases hx : x = '^'
    · simp [hx, ih]
    · simp [hx, ih, List.count_cons, Ne.symm hx]

theorem count_caret_space (l : List Char) :
    (replaceChar ' ' [] l).count '^' ≤ l.count '^' := by
  induction l with
  | nil => exact Nat.le_refl _
  | cons x xs ih =>
    by_cases hx : x = ' '
    · subst hx
      simp only [replaceChar, if_pos rfl, List.nil_append]
      exact le_trans ih (by simp [List.count_cons])
    · simp only [replaceChar, if_neg hx, List.singleton_append, List.count_cons]
      omega

theorem cleanExpr_no_caret (e : String) :
    (Server.cleanExpr e).data.count '^' = 0 := by
  have h1 := count_caret_replace e.data
  have h2 := count_caret_space (replaceChar '^' ['*', '*'] e.data)
  simp only [Server.cleanExpr]
  omega

/-! ## The claims -/

/-- Claim C2, counterexample: the registry exposes the Python function
names; three of the four names demanded by the claim are absent. -/
theorem c2_registry_names_cex :
    Server.tool_names ≠ ["calculate", "chat", "search", "summarize"] ∧
    "chat" ∉ Server.tool_names ∧
    "search" ∉ Server.tool_names ∧
    "summarize" ∉ Server.tool_names := by decide

/-- Claim C2, amended: the Tool Registry contains exactly four entries,
named `calculate`, `chat_with_gemma3`, `web_search` and `summarize_text`
(no duplicates), and every tool name the console client dispatches to is
one of them. -/
theorem c2_registry_names :
    Server.tool_names = ["calculate", "chat_with_gemma3", "web_search", "summarize_text"] ∧
    Server.tool_names.length = 4 ∧
    Server.tool_names.Nodup ∧
    ∀ a n, Client.calledTool a = some n → n ∈ Server.tool_names := by
  refine ⟨by decide, by decide, by decide, ?_⟩
  intro a n h
  cases a <;> simp only [Client.calledTool, Option.some.injEq, reduceCtorEq] at h <;>
    subst h <;> decide

/-- Witness for C2's amended theorem at a concrete dispatch action. -/
theorem c2_registry_names_witness :
    Client.calledTool (Client.ConsoleAction.calcCall "2+2") = some "calculate" ∧
    "calculate" ∈ Server.tool_names :=
  ⟨rfl, c2_registry_names.2.2.2 (Client.ConsoleAction.calcCall "2+2") "calculate" rfl⟩

/-- Claim C4 (confirmed): whenever the worker thread finishes in time and
its queue entry records the success of the asynchronous bridge sequence,
`call_tool_sync` returns exactly the text `call_tool_async` produced --
the adapter is an identity wrapper on the happy path. -/
theorem c4_adapter_transparent (b : Gradio.SessionBehavior) :
    Gradio.call_tool_sync
        (Gradio.JoinOutcome.finished
          (some (Gradio.thread_func (Except.ok (Gradio.call_tool_async b))))) =
      Gradio.call_tool_async b := rfl

/-- Claim C5 (confirmed): an expired wait with the worker still alive
yields the distinguished timeout string, and a finished wait with an empty
result queue yields the distinguished no-response string; both are plain
return values of the total function `call_tool_sync`, so no fault reaches
the caller. -/
theorem c5_timeout_and_no_response :
    Gradio.call_tool_sync Gradio.JoinOutcome.timedOut = "⏱️ Timeout: Request took too long" ∧
    Gradio.call_tool_sync (Gradio.JoinOutcome.finished none) = "❌ No response received" :=
  ⟨rfl, rfl⟩

/-- Claim C9, counterexample: with the odd budget `max_length = 5` and a
six-word text, the code keeps the last `3 = 5 - 5//2` words (the slice
index is `(-5)//2 = -3`), not the last `5//2 = 2` words the claim
predicts, so the word `d` survives and the output differs from the
claimed `"Summary (4 words): a b... e f"`. -/
theorem c9_odd_budget_cex :
    Server.summarize_text "a b c d e f" 5 = "Summary (5 words): a b... d e f" ∧
    Server.summarize_text "a b c d e f" 5 ≠ "Summary (4 words): a b... e f" := by
  decide

/-- Claim C10 (confirmed): `calculate` rewrites every `^` to `**` before
the denylist check and evaluation -- `2^3` evaluates as a power and the
echoed expression is the rewritten one -- and no caret survives the
cleaning step on any input. -/
theorem c10_caret_rewrite :
    Server.calculate "2^3" = "2**3 = 8" ∧
    Server.calculate "7 ^ 2" = "7**2 = 49" ∧
    ∀ e : String, (Server.cleanExpr e).data.count '^' = 0 :=
  ⟨by decide, by decide, cleanExpr_no_caret⟩

/-- Claim C3 (confirmed): whenever the cleaned expression contains a
denylisted token in any letter case, `calculate` returns the error string
naming an offending token, and the result is the same for every evaluator
-- the evaluation step is unreachable. -/
theorem c3_denylist_blocks (ev : String → Except PyExc PyVal)
    (expression p : String)
    (hp : p ∈ Server.dangerous_patterns)
    (hc : containsSub p.data (lowerStr (Server.cleanExpr expression)).data = true) :
    ∃ q ∈ Server.dangerous_patterns,
      containsSub q.data (lowerStr (Server.cleanExpr expression)).data = true ∧
      Server.calculateWith ev expression =
        "Error: \x27" ++ q ++ "\x27 not allowed in expressions" ∧
      ∀ ev2, Server.calculateWith ev2 expression = Server.calculateWith ev expression := by
  have hne : Server.cleanExpr expression ≠ "" := by
    intro h0
    rw [h0] at hc
    fin_cases hp <;> exact absurd hc (by decide)
  rcases hfd : Server.firstDangerous (Server.cleanExpr expression) with _ | q
  · have hfd2 := hfd
    simp only [Server.firstDangerous] at hfd2
    exact absurd hc (List.find?_eq_none.mp hfd2 p hp)
  · have hfd2 := hfd
    simp only [Server.firstDangerous] at hfd2
    refine ⟨q, List.mem_of_find?_eq_some hfd2, ?_, ?_, ?_⟩
    · simpa using List.find?_some hfd2
    · simp [Server.calculateWith, hne, hfd]
    · intro ev2
      simp [Server.calculateWith, hne, hfd]

/-- Witness for C3 at the concrete expression `"2 + Import"` with a
constant evaluator. -/
theorem c3_denylist_blocks_witness :
    ("import" ∈ Server.dangerous_patterns ∧
      containsSub "import".data (lowerStr (Server.cleanExpr "2 + Import")).data = true) ∧
    (∃ q ∈ Server.dangerous_patterns,
      containsSub q.data (lowerStr (Server.cleanExpr "2 + Import")).data = true ∧
      Server.calculateWith (fun _ => Except.ok (PyVal.int 0)) "2 + Import" =
        "Error: \x27" ++ q ++ "\x27 not allowed in expressions" ∧
      ∀ ev2, Server.calculateWith ev2 "2 + Import" =
        Server.calculateWith (fun _ => Except.ok (PyVal.int 0)) "2 + Import") :=
  ⟨⟨by decide, by decide⟩,
    c3_denylist_blocks (fun _ => Except.ok (PyVal.int 0)) "2 + Import" "import"
      (by decide) (by decide)⟩

/-- Claim C6 (confirmed): on a successful evaluation `calculate` echoes
the cleaned (space-stripped, caret-rewritten) expression followed by
`" = "` and the formatted result, where an integral float prints without
a fractional part and any other float prints with 10 significant digits;
concretely `calculate "2 + 2 * 3" = "2+2*3 = 8"`. -/
theorem c6_success_format (ev : String → Except PyExc PyVal)
    (expression : String) (v : PyVal)
    (h1 : Server.cleanExpr expression ≠ "")
    (h2 : Server.firstDangerous (Server.cleanExpr expression) = none)
    (h3 : ev (Server.cleanExpr expression) = Except.ok v) :
    Server.calculateWith ev expression =
      Server.cleanExpr expression ++ " = " ++ formatVal v ∧
    (∀ q : Rat, q.den = 1 → formatVal (PyVal.float q) = toString q.num) ∧
    (∀ q : Rat, q.den ≠ 1 → formatVal (PyVal.float q) = fmt10g q) ∧
    Server.calculate "2 + 2 * 3" = "2+2*3 = 8" := by
  refine ⟨?_, ?_, ?_, by decide⟩
  · simp [Server.calculateWith, h1, h2, h3]
  · intro q hq
    simp [formatVal, hq]
  · intro q hq
    simp [formatVal, hq]

/-- Witness for C6 at `"2 + 2 * 3"` with the embedded evaluator. -/
theorem c6_success_format_witness :
    (Server.cleanExpr "2 + 2 * 3" ≠ "" ∧
      Server.firstDangerous (Server.cleanExpr "2 + 2 * 3") = none ∧
      pyInterp (Server.cleanExpr "2 + 2 * 3") = Except.ok (PyVal.int 8)) ∧
    (Server.calculateWith pyInterp "2 + 2 * 3" =
        Server.cleanExpr "2 + 2 * 3" ++ " = " ++ formatVal (PyVal.int 8) ∧
      (∀ q : Rat, q.den = 1 → formatVal (PyVal.float q) = toString q.num) ∧
      (∀ q : Rat, q.den ≠ 1 → formatVal (PyVal.float q) = fmt10g q) ∧
      Server.calculate "2 + 2 * 3" = "2+2*3 = 8") :=
  ⟨⟨by decide, by decide, by decide⟩,
    c6_success_format pyInterp "2 + 2 * 3" (PyVal.int 8)
      (by decide) (by decide) (by decide)⟩

/-- Claim C7 (confirmed): `calculate "1/0"` reports the division by zero,
and on every input `calculate` returns a string that is either one of its
`"Error: "`-prefixed conversions of an exception or the echoed successful
evaluation -- the `try`/`except` ladder is exhaustive, so no exception
escapes its boundary. -/
theorem c7_division_by_zero_total (expression : String) :
    Server.calculate "1/0" = "Error: Division by zero" ∧
    ((∃ msg, Server.calculate expression = "Error: " ++ msg) ∨
      (∃ v, pyInterp (Server.cleanExpr expression) = Except.ok v ∧
        Server.calculate expression =
          Server.cleanExpr expression ++ " = " ++ formatVal v)) := by
  refine ⟨by decide, ?_⟩
  by_cases he : Server.cleanExpr expression = ""
  · left
    refine ⟨"Empty expression", ?_⟩
    simp only [Server.calculate, Server.calculateWith]
    rw [if_pos he]
    decide
  · rcases hfd : Server.firstDangerous (Server.cleanExpr expression) with _ | q
    · rcases hv : pyInterp (Server.cleanExpr expression) with exc | v
      · left
        cases exc with
        | zeroDivision =>
          refine ⟨"Division by zero", ?_⟩
          simp only [Server.calculate, Server.calculateWith, hfd, hv]
          rw [if_neg he]
          decide
        | valueError msg =>
          refine ⟨"Invalid value - " ++ msg, ?_⟩
          simp only [Server.calculate, Server.calculateWith, hfd, hv]
          rw [if_neg he]
          rw [show ("Error: Invalid value - " : String) = "Error: " ++ "Invalid value - "
            from by decide]
          rw [str_append_assoc]
        | syntaxError =>
          refine ⟨"Invalid mathematical expression", ?_⟩
          simp only [Server.calculate, Server.calculateWith, hfd, hv]
          rw [if_neg he]
          decide
        | other msg =>
          refine ⟨msg, ?_⟩
          simp only [Server.calculate, Server.calculateWith, hfd, hv]
          rw [if_neg he]
      · right
        refine ⟨v, rfl, ?_⟩
        simp only [Server.calculate, Server.calculateWith, hfd, hv]
        rw [if_neg he]
    · left
      refine ⟨"\x27" ++ (q ++ "\x27 not allowed in expressions"), ?_⟩
      simp only [Server.calculate, Server.calculateWith, hfd]
      rw [if_neg he]
      rw [show ("Error: \x27" : String) = "Error: " ++ "\x27" from by decide]
      rw [str_append_assoc, str_append_assoc]

/-- Claim C1, counterexample: the console client lowercases the input
before the prefix test, so `"CALC: 2+2"` is dispatched to the calculator,
not to the chat tool as the claim predicts. -/
theorem c1_console_case_cex :
    Client.route "CALC: 2+2" = Client.ConsoleAction.calcCall "2+2" ∧
    Client.route "CALC: 2+2" ≠ Client.ConsoleAction.chatCall "CALC: 2+2" := by
  decide

/-- Claim C1, amended: both routers dispatch by prefix in the fixed order
`calc:`, `search:`, `summarize:`, chat, stopping at the first match; the
multi-tool UI matches prefixes case-sensitively (a case-differing prefix
falls through to chat), while the console client matches them on the
lowercased input, hence case-insensitively. -/
theorem c1_router_dispatch :
    (∀ (ct : String → List (String × String) → String) (m : String)
        (h : List (String × String)), pyStrip m ≠ "" →
      Gradio.multi_tool_response ct m h =
        (h ++ [(m,
          if pyStartsWith m "calc:" then
            "🧮 " ++ Gradio.calculate ct (pyStrip (pyDrop m 5))
          else if pyStartsWith m "search:" then
            "🔍 " ++ Gradio.web_search ct (pyStrip (pyDrop m 7))
          else if pyStartsWith m "summarize:" then
            "📝 " ++ Gradio.summarize ct (pyStrip (pyDrop m 10))
          else "🤖 " ++ ct "chat_with_gemma3" [("message", m)])], "")) ∧
    (∀ raw : String,
      lowerStr (pyStrip raw) ≠ "quit" → lowerStr (pyStrip raw) ≠ "exit" →
      lowerStr (pyStrip raw) ≠ "q" → pyStrip raw ≠ "" →
      lowerStr (pyStrip raw) ≠ "tools" →
      Client.route raw =
        (if pyStartsWith (lowerStr (pyStrip raw)) "calc:" then
          (if pyStrip (pyDrop (pyStrip raw) 5) = "" then Client.ConsoleAction.calcUsage
           else Client.ConsoleAction.calcCall (pyStrip (pyDrop (pyStrip raw) 5)))
         else if pyStartsWith (lowerStr (pyStrip raw)) "search:" then
          (if pyStrip (pyDrop (pyStrip raw) 7) = "" then Client.ConsoleAction.searchUsage
           else Client.ConsoleAction.searchCall (pyStrip (pyDrop (pyStrip raw) 7)))
         else if pyStartsWith (lowerStr (pyStrip raw)) "summarize:" then
          (if pyStrip (pyDrop (pyStrip raw) 10) = "" then Client.ConsoleAction.summarizeUsage
           else Client.ConsoleAction.summarizeCall (pyStrip (pyDrop (pyStrip raw) 10)))
         else Client.ConsoleAction.chatCall (pyStrip raw))) ∧
    (∀ (ct : String → List (String × String) → String) (h : List (String × String)),
      Gradio.multi_tool_response ct "Calc: 2+2" h =
        (h ++ [("Calc: 2+2", "🤖 " ++ ct "chat_with_gemma3" [("message", "Calc: 2+2")])], "")) ∧
    Client.route "Search: cats" = Client.ConsoleAction.searchCall "cats" := by
  refine ⟨?_, ?_, ?_, by decide⟩
  · intro ct m h hm
    by_cases h1 : pyStartsWith m "calc:" = true <;>
      by_cases h2 : pyStartsWith m "search:" = true <;>
      by_cases h3 : pyStartsWith m "summarize:" = true <;>
      simp [Gradio.multi_tool_response, hm, h1, h2, h3]
  · intro raw h1 h2 h3 h4 h5
    simp only [Client.route]
    rw [if_neg (by simp [h1, h2, h3]), if_neg h4, if_neg h5]
  · intro ct h
    simp only [Gradio.multi_tool_response]
    rw [if_neg (by decide : ¬(pyStrip "Calc: 2+2" = ""))]
    rw [if_neg (by decide : ¬(pyStartsWith "Calc: 2+2" "calc:" = true))]
    rw [if_neg (by decide : ¬(pyStartsWith "Calc: 2+2" "search:" = true))]
    rw [if_neg (by decide : ¬(pyStartsWith "Calc: 2+2" "summarize:" = true))]

/-- Witness for C1's amended theorem: a prefixed message on the UI router
and an unprefixed message on the console router. -/
theorem c1_router_dispatch_witness :
    (pyStrip "search: dogs" ≠ "" ∧
      Gradio.multi_tool_response (fun _ _ => "R") "search: dogs" [] =
        ([("search: dogs", "🔍 " ++ Gradio.web_search (fun _ _ => "R") "dogs")], "")) ∧
    Client.route "hello there" = Client.ConsoleAction.chatCall "hello there" := by
  constructor
  · refine ⟨by decide, ?_⟩
    rw [c1_router_dispatch.1 (fun _ _ => "R") "search: dogs" [] (by decide)]
    decide
  · rw [c1_router_dispatch.2.1 "hello there" (by decide) (by decide) (by decide) (by decide)
      (by decide)]
    decide

/-- Claim C8 (confirmed): the UI router is a no-op on whitespace-only
messages, appends exactly one `(message, response)` pair otherwise, and on
`route("calc: 2+2", [])` the appended response is the calculator marker
followed by exactly `calculate("2+2")`'s output (which is `"2+2 = 4"`). -/
theorem c8_route_calc (ct : String → List (String × String) → String)
    (m : String) (h : List (String × String))
    (hct : ct "calculate" [("expression", "2+2")] = Server.calculate "2+2") :
    (pyStrip m = "" → Gradio.multi_tool_response ct m h = (h, "")) ∧
    (pyStrip m ≠ "" → ∃ r, Gradio.multi_tool_response ct m h = (h ++ [(m, r)], "")) ∧
    Gradio.multi_tool_response ct "calc: 2+2" [] =
      ([("calc: 2+2", "🧮 " ++ Server.calculate "2+2")], "") ∧
    Server.calculate "2+2" = "2+2 = 4" := by
  refine ⟨?_, ?_, ?_, by decide⟩
  · intro hm
    simp [Gradio.multi_tool_response, hm]
  · intro hm
    by_cases h1 : pyStartsWith m "calc:" = true
    · refine ⟨"🧮 " ++ Gradio.calculate ct (pyStrip (pyDrop m 5)), ?_⟩
      simp [Gradio.multi_tool_response, hm, h1]
    · by_cases h2 : pyStartsWith m "search:" = true
      · refine ⟨"🔍 " ++ Gradio.web_search ct (pyStrip (pyDrop m 7)), ?_⟩
        simp [Gradio.multi_tool_response, hm, h1, h2]
      · by_cases h3 : pyStartsWith m "summarize:" = true
        · refine ⟨"📝 " ++ Gradio.summarize ct (pyStrip (pyDrop m 10)), ?_⟩
          simp [Gradio.multi_tool_response, hm, h1, h2, h3]
        · refine ⟨"🤖 " ++ ct "chat_with_gemma3" [("message", m)], ?_⟩
          simp [Gradio.multi_tool_response, hm, h1, h2, h3]
  · simp only [Gradio.multi_tool_response]
    rw [if_neg (by decide : ¬(pyStrip "calc: 2+2" = ""))]
    rw [if_pos (by decide : pyStartsWith "calc: 2+2" "calc:" = true)]
    rw [show pyStrip (pyDrop "calc: 2+2" 5) = "2+2" from by decide]
    simp only [Gradio.calculate]
    rw [if_neg (by decide : ¬(pyStrip "2+2" = ""))]
    rw [hct]
    rfl

/-- Witness for C8 with the happy-path adapter behavior at a whitespace
message and a concrete history. -/
theorem c8_route_calc_witness :
    ((fun _ _ => Server.calculate "2+2") : String → List (String × String) → String)
        "calculate" [("expression", "2+2")] = Server.calculate "2+2" ∧
    ((pyStrip " " = "" →
        Gradio.multi_tool_response (fun _ _ => Server.calculate "2+2") " " [("u", "v")] =
          ([("u", "v")], "")) ∧
      (pyStrip " " ≠ "" →
        ∃ r, Gradio.multi_tool_response (fun _ _ => Server.calculate "2+2") " " [("u", "v")] =
          ([("u", "v")] ++ [(" ", r)], "")) ∧
      Gradio.multi_tool_response (fun _ _ => Server.calculate "2+2") "calc: 2+2" [] =
        ([("calc: 2+2", "🧮 " ++ Server.calculate "2+2")], "") ∧
      Server.calculate "2+2" = "2+2 = 4") :=
  ⟨rfl, c8_route_calc (fun _ _ => Server.calculate "2+2") " " [("u", "v")] rfl⟩

/-- Claim C9, amended: with word count at most `max_length` the text is
returned verbatim inside the word-count annotation; otherwise the summary
concatenates the first `max_length//2` words with the last
`max_length - max_length//2` words (the slice index is `(-max_length)//2`,
a floor division, so for odd budgets the tail keeps one word more than the
claim stated), joined by an ellipsis and labelled with the summary's own
word count. -/
theorem c9_truncation (text : String) (ml : Nat) :
    ((pySplitWS text).length ≤ ml →
      Server.summarize_text text (ml : Int) =
        "Text is already short (" ++ toString (pySplitWS text).length ++ " words): " ++ text) ∧
    (0 < ml → ml < (pySplitWS text).length →
      Server.summarize_text text (ml : Int) =
        "Summary (" ++
          toString (pySplitWS (joinSp ((pySplitWS text).take (ml / 2)) ++ "... " ++
            joinSp ((pySplitWS text).drop
              ((pySplitWS text).length - (ml - ml / 2))))).length ++
          " words): " ++
          (joinSp ((pySplitWS text).take (ml / 2)) ++ "... " ++
            joinSp ((pySplitWS text).drop
              ((pySplitWS text).length - (ml - ml / 2))))) := by
  constructor
  · intro h
    have hcond : ((pySplitWS text).length : Int) ≤ (ml : Int) := by omega
    simp only [Server.summarize_text]
    rw [if_pos hcond]
  · intro hml hlen
    have hcond : ¬ (((pySplitWS text).length : Int) ≤ (ml : Int)) := by omega
    have hTo : pySliceTo ((ml : Int) / 2) (pySplitWS text) =
        (pySplitWS text).take (ml / 2) := by
      have h1 : (0 : Int) ≤ (ml : Int) / 2 := by omega
      simp only [pySliceTo, if_pos h1]
      congr 1
    have hFrom : pySliceFrom (-(ml : Int) / 2) (pySplitWS text) =
        (pySplitWS text).drop ((pySplitWS text).length - (ml - ml / 2)) := by
      have h2 : ¬ ((0 : Int) ≤ -(ml : Int) / 2) := by omega
      simp only [pySliceFrom, if_neg h2]
      congr 1
      omega
    simp only [Server.summarize_text]
    rw [if_neg hcond]
    rw [Int.fdiv_eq_ediv (ml : Int) (by decide : (0 : Int) ≤ 2)]
    rw [Int.fdiv_eq_ediv (-(ml : Int)) (by decide : (0 : Int) ≤ 2)]
    rw [hTo, hFrom]

/-- Witness for C9's amended theorem: the verbatim branch on a three-word
text and the truncation branch on a six-word text, both with budget 5. -/
theorem c9_truncation_witness :
    Server.summarize_text "a b c" (5 : Int) = "Text is already short (3 words): a b c" ∧
    Server.summarize_text "a b c d e f" (5 : Int) = "Summary (5 words): a b... d e f" :=
  ⟨((c9_truncation "a b c" 5).1 (by decide)).trans (by decide),
   ((c9_truncation "a b c d e f" 5).2 (by decide) (by decide)).trans (by decide)⟩
